import Mathlib

/-!
Shallow embedding of the SmartStudy batch analysis pipeline.

Sources:
- src/services/geminiService.ts : retryWithBackoff, analyzeQuestionImage
- src/App.tsx                   : handleFileUpload / processBatch / worker,
                                  startExam, handleAnswer, handleNext, saveToHistory
- src/types.ts                  : QuestionData, ExamSession, HistoryEntry, AppStatus

Remote calls are modelled as an oracle giving, per image payload and per attempt
index, either a thrown JsError or the response text.  Time delays are recorded
as rational wait amounts (JS numbers are exact on these values); the passage of
real time is not modelled.  App.tsx fixes MAX_CONCURRENT_REQUESTS = 1, so the
worker pool is a single sequential worker draining the queue in order.
-/

/-- A thrown JS error as observed by the retry logic: a message string and an
optional numeric status field (undefined is modelled as none). -/
structure JsError where
  message : String
  status : Option Int
deriving Repr, DecidableEq

/-- Character-list version of the test that one list starts with another,
used to model the JS String.includes check. -/
def startsWithChars : List Char → List Char → Bool
  | _, [] => true
  | [], _ :: _ => false
  | a :: as, b :: bs => a == b && startsWithChars as bs

/-- Does the pattern occur as a contiguous run inside the list of characters. -/
def hasSubChars (pat : List Char) : List Char → Bool
  | [] => startsWithChars [] pat
  | s :: t => startsWithChars (s :: t) pat || hasSubChars pat t

/-- Model of the JS s.includes(pat) substring test. -/
def jsIncludes (s pat : String) : Bool :=
  hasSubChars pat.data s.data

/-- geminiService.ts line 12: the error is classified as quota exhaustion when
its message mentions 429 or RESOURCE_EXHAUSTED, or its status field is 429. -/
def isQuotaExceeded (e : JsError) : Bool :=
  jsIncludes e.message ("429") || e.status == some 429 ||
    jsIncludes e.message ("RESOURCE_EXHAUSTED")

/-- geminiService.ts line 13, second disjunct: a numeric status in [500, 600)
(a comparison against an undefined status is false in JS). -/
def isServerStatus (e : JsError) : Bool :=
  match e.status with
  | some s => decide (500 ≤ s) && decide (s < 600)
  | none => false

/-- geminiService.ts line 13: retryable errors are quota exhaustion or 5xx. -/
def isRetryable (e : JsError) : Bool :=
  isQuotaExceeded e || isServerStatus e

/-- Observable outcome of one retryWithBackoff run: the value returned or the
error thrown, how many times fn was invoked, and the waits slept between
attempts (in milliseconds, exact rational arithmetic). -/
structure RetryTrace (α : Type) where
  result : Except JsError α
  invocations : Nat
  waits : List ℚ

/-- geminiService.ts lines 8-24, the retry loop of retryWithBackoff, with the
attempt oracle fn giving the outcome of each 0-based attempt.  The loop body
at index i: on success return; on failure, if i < retries - 1 and the error is
retryable, wait (delay scaled by (i + 1.5) for quota errors, plain delay
otherwise), double delay and continue; otherwise rethrow.  The for loop runs
while i < retries; fuel counts the iterations still permitted and is kept
equal to retries - i by the caller, so that fuel = 0 exactly when the loop
guard i < retries fails, in which case the fallthrough line 25 (return fn())
runs, invoking fn once more. -/
def retryAux {α : Type} (fn : Nat → Except JsError α) (retries : Nat) :
    Nat → Nat → ℚ → RetryTrace α
  | 0, i, _ =>
    (match fn i with
     | Except.ok a => { result := Except.ok a, invocations := 1, waits := [] }
     | Except.error e => { result := Except.error e, invocations := 1, waits := [] })
  | fuel + 1, i, delay =>
    match fn i with
    | Except.ok a => { result := Except.ok a, invocations := 1, waits := [] }
    | Except.error e =>
      if i < retries - 1 ∧ isRetryable e = true then
        let waitTime : ℚ := if isQuotaExceeded e then delay * ((i : ℚ) + 3 / 2) else delay
        let rest := retryAux fn retries fuel (i + 1) (delay * 2)
        { result := rest.result, invocations := rest.invocations + 1,
          waits := waitTime :: rest.waits }
      else
        { result := Except.error e, invocations := 1, waits := [] }

/-- geminiService.ts line 6: retryWithBackoff with its loop started at i = 0
and the full iteration budget; the defaults at the call site are retries = 5,
initialDelay = 3000. -/
def retryWithBackoff {α : Type} (fn : Nat → Except JsError α) (retries : Nat)
    (initialDelay : ℚ) : RetryTrace α :=
  retryAux fn retries retries 0 initialDelay

/-- types.ts: a trilingual text field with the fixed language keys pt, en, es. -/
structure LangText where
  pt : String
  en : String
  es : String
deriving Repr, DecidableEq

/-- types.ts: per-language option maps, each an option-label to text mapping
(modelled as an association list). -/
structure OptionsByLang where
  pt : List (String × String)
  en : List (String × String)
  es : List (String × String)
deriving Repr, DecidableEq

/-- The structured output of one successful analysis call, as consumed by the
worker in App.tsx lines 109-113: question, options, correctAnswer,
explanations. -/
structure AnalysisRecord where
  question : LangText
  options : OptionsByLang
  correctAnswer : String
  explanations : LangText
deriving Repr, DecidableEq

/-- The fields of types.ts QuestionData under texts. -/
structure QTexts where
  question : LangText
  options : OptionsByLang
deriving Repr, DecidableEq

/-- types.ts QuestionData. -/
structure QuestionData where
  id : String
  image : String
  texts : QTexts
  correctAnswer : String
  explanations : LangText
deriving Repr, DecidableEq

/-- types.ts ExamSession; answers is a questionId to selectedLabel map,
modelled as an association list. -/
structure ExamSession where
  id : String
  folderName : String
  questions : List QuestionData
  currentIndex : Nat
  score : Nat
  answers : List (String × String)
  isFinished : Bool
  isStillLoading : Bool
deriving Repr, DecidableEq

/-- types.ts HistoryEntry; accuracy is the rounded integer percentage. -/
structure HistoryEntry where
  id : String
  date : String
  folderName : String
  score : Nat
  total : Nat
  accuracy : ℤ
deriving Repr, DecidableEq

/-- types.ts AppStatus. -/
inductive AppStatus where
  | SETUP
  | LOADING
  | EXAM
  | RESULT
  | HISTORY
deriving Repr, DecidableEq

/-- geminiService.ts lines 99-106: the response text is read (response.text
may be undefined, modelled as none); an absent or empty text throws, and any
parse failure is rethrown as the fixed malformed-format error.  Both failure
paths surface the same error object. -/
def malformedError : JsError :=
  { message := "Invalid AI response format", status := none }

/-- geminiService.ts lines 99-106: validation of a successful remote response.
The JSON.parse step is abstracted as a parse oracle returning none exactly when
the text is unparsable. -/
def validateResponse (text : Option String)
    (parse : String → Option AnalysisRecord) : Except JsError AnalysisRecord :=
  match text with
  | none => Except.error malformedError
  | some t =>
    if t = "" then Except.error malformedError
    else
      match parse t with
      | some r => Except.ok r
      | none => Except.error malformedError

/-- One attempt of the fn passed to retryWithBackoff in analyzeQuestionImage
(geminiService.ts lines 70-107): the remote generateContent call either throws
(network, quota, server error) or yields an optional response text, which is
then validated. -/
def analyzeAttempt (remote : Nat → Except JsError (Option String))
    (parse : String → Option AnalysisRecord) (i : Nat) :
    Except JsError AnalysisRecord :=
  match remote i with
  | Except.error e => Except.error e
  | Except.ok text => validateResponse text parse

/-- geminiService.ts line 28/70: analyzeQuestionImage runs its attempt under
retryWithBackoff with the default arguments retries = 5, initialDelay = 3000. -/
def analyzeQuestionImage (remote : Nat → Except JsError (Option String))
    (parse : String → Option AnalysisRecord) : RetryTrace AnalysisRecord :=
  retryWithBackoff (analyzeAttempt remote parse) 5 3000

/-- An input file as the upload handler sees it: name, byte size, MIME type,
the data-URL payload the FileReader produces for it, and the optional
webkitRelativePath. -/
structure JsFile where
  name : String
  size : Nat
  mimeType : String
  base64 : String
  webkitRelativePath : Option String
deriving Repr, DecidableEq

/-- App.tsx line 82: the cache fingerprint of a file is name_size. -/
def cacheId (f : JsFile) : String :=
  f.name ++ "_" ++ toString f.size

/-- Lookup in a JS-object-as-map, modelled as an association list. -/
def alistLookup {β : Type} : List (String × β) → String → Option β
  | [], _ => none
  | (k, v) :: t, key => if k = key then some v else alistLookup t key

/-- JS property assignment obj[key] = v: overwrite the binding if the key is
present, append it otherwise. -/
def alistInsert {β : Type} : List (String × β) → String → β → List (String × β)
  | [], key, v => [(key, v)]
  | (k, w) :: t, key, v =>
    if k = key then (k, v) :: t else (k, w) :: alistInsert t key v

/-- Observable side effects of the worker loop, in program order: one remote
analysis attempt, one synchronous write of the cache to localStorage
(App.tsx line 100), and one processedCount increment (the finally block,
App.tsx line 125). -/
inductive BatchEv where
  | remoteCall (fingerprint : String)
  | persistPut (fingerprint : String)
  | countProcessed
deriving Repr, DecidableEq

def isRemoteCallEv : BatchEv → Bool
  | BatchEv.remoteCall _ => true
  | _ => false

def isPersistEv : BatchEv → Bool
  | BatchEv.persistPut _ => true
  | _ => false

/-- Number of remote analysis attempts recorded in an event trace. -/
def remoteCallCount (evs : List BatchEv) : Nat :=
  (evs.filter isRemoteCallEv).length

/-- The component state of App.tsx that the claims mention, plus the persisted
localStorage cache under CACHE_KEY (cacheStore). -/
structure AppState where
  status : AppStatus
  session : Option ExamSession
  history : List HistoryEntry
  processedCount : Nat
  totalToProcess : Nat
  currentFilePath : String
  error : Option String
  isRateLimited : Bool
  questionsRef : List QuestionData
  cacheStore : List (String × AnalysisRecord)
deriving Repr, DecidableEq

/-- App state together with the in-memory cache object local to processBatch
(App.tsx line 76); it starts as the parsed cacheStore and every write to it is
immediately mirrored to cacheStore. -/
structure WorkerState where
  app : AppState
  cache : List (String × AnalysisRecord)
deriving Repr, DecidableEq

/-- App.tsx lines 105-114: the Question built from a completed job.  The
source draws the id from Math.random; the model supplies a fresh id derived
from the number of questions already collected, which preserves the only
property the program relies on (process-uniqueness). -/
def mkQuestion (qid : String) (image : String) (r : AnalysisRecord) : QuestionData :=
  { id := qid
    image := image
    texts := { question := r.question, options := r.options }
    correctAnswer := r.correctAnswer
    explanations := r.explanations }

/-- App.tsx line 120-122: the worker catch block sets the shared rate-limit
flag when the final error message mentions 429 or RESOURCE_EXHAUSTED. -/
def workerSawRateLimit (e : JsError) : Bool :=
  jsIncludes e.message ("429") || jsIncludes e.message ("RESOURCE_EXHAUSTED")

/-- One iteration of the worker loop, App.tsx lines 79-126, for the file just
popped from the queue.  net gives the remote attempt oracle for a given image
payload; parse is the JSON-parse oracle.  Returns the updated state and the
ordered trace of observable effects of this job. -/
def processFile (net : String → Nat → Except JsError (Option String))
    (parse : String → Option AnalysisRecord)
    (ws : WorkerState) (f : JsFile) : WorkerState × List BatchEv :=
  let fp := cacheId f
  let app0 := { ws.app with currentFilePath := f.webkitRelativePath.getD f.name }
  match alistLookup ws.cache fp with
  | some r =>
    let qs := app0.questionsRef ++
      [mkQuestion ("q-" ++ toString app0.questionsRef.length) f.base64 r]
    ({ app := { app0 with
          questionsRef := qs
          session := app0.session.map (fun sess => { sess with questions := qs })
          processedCount := app0.processedCount + 1 }
       cache := ws.cache },
     [BatchEv.countProcessed])
  | none =>
    let tr := analyzeQuestionImage (net f.base64) parse
    let callEvs := List.replicate tr.invocations (BatchEv.remoteCall fp)
    match tr.result with
    | Except.ok r =>
      let cache1 := alistInsert ws.cache fp r
      let app1 := { app0 with cacheStore := cache1 }
      let qs := app1.questionsRef ++
        [mkQuestion ("q-" ++ toString app1.questionsRef.length) f.base64 r]
      ({ app := { app1 with
            questionsRef := qs
            session := app1.session.map (fun sess => { sess with questions := qs })
            processedCount := app1.processedCount + 1 }
         cache := cache1 },
       callEvs ++ [BatchEv.persistPut fp, BatchEv.countProcessed])
    | Except.error e =>
      ({ app := { app0 with
            isRateLimited := app0.isRateLimited || workerSawRateLimit e
            processedCount := app0.processedCount + 1 }
         cache := ws.cache },
       callEvs ++ [BatchEv.countProcessed])

/-- The single worker of App.tsx lines 78-128 draining the queue in FIFO
order (MAX_CONCURRENT_REQUESTS = 1). -/
def runWorker (net : String → Nat → Except JsError (Option String))
    (parse : String → Option AnalysisRecord)
    (ws : WorkerState) : List JsFile → WorkerState × List BatchEv
  | [] => (ws, [])
  | f :: fs =>
    let step := processFile net parse ws f
    let rest := runWorker net parse step.1 fs
    (rest.1, step.2 ++ rest.2)

/-- JS Math.round, which agrees with floor(x + 1/2) on the rationals. -/
def jsRound (x : ℚ) : ℤ :=
  Int.floor (x + 1 / 2)

/-- App.tsx lines 34-46: the HistoryEntry created at finalization.  The wall
clock string is a parameter (new Date().toLocaleString). -/
def saveToHistory (now : String) (sess : ExamSession) : HistoryEntry :=
  { id := sess.id
    date := now
    folderName := sess.folderName
    score := sess.score
    total := sess.questions.length
    accuracy := jsRound (((sess.score : ℚ) / (sess.questions.length : ℚ)) * 100) }

/-- App.tsx lines 140-152: startExam builds a fresh session over the questions
collected so far.  The session id (Date.now) is a parameter. -/
def startExam (folderName sessionId : String) (s : AppState) : AppState :=
  { s with
    session := some
      { id := sessionId
        folderName := folderName
        questions := s.questionsRef
        currentIndex := 0
        score := 0
        answers := []
        isFinished := false
        isStillLoading := s.processedCount < s.totalToProcess }
    status := AppStatus.EXAM }

/-- App.tsx lines 154-162: record an answer for the current question.  An
out-of-range cursor would make the source throw before any state update, so
the model leaves the state unchanged in that case. -/
def handleAnswer (selected : String) (s : AppState) : AppState :=
  match s.session with
  | none => s
  | some sess =>
    match sess.questions.get? sess.currentIndex with
    | none => s
    | some q =>
      let isCorrect := selected = q.correctAnswer
      { s with
        session := some
          { sess with
            score := if isCorrect then sess.score + 1 else sess.score
            answers := alistInsert sess.answers q.id selected } }

/-- App.tsx lines 164-173: advance the cursor; past the last question, a
still-loading session makes this a no-op, otherwise the session is finalized
into a HistoryEntry and the app moves to RESULT. -/
def handleNext (now : String) (s : AppState) : AppState :=
  match s.session with
  | none => s
  | some sess =>
    if sess.questions.length ≤ sess.currentIndex + 1 then
      if sess.isStillLoading then s
      else
        { s with
          history := saveToHistory now sess :: s.history
          status := AppStatus.RESULT }
    else
      { s with session := some { sess with currentIndex := sess.currentIndex + 1 } }

/-- Model of the JS s.startsWith(pat) test. -/
def jsStartsWith (s pat : String) : Bool :=
  startsWithChars s.data pat.data

/-- App.tsx lines 59-61: accepted image MIME types. -/
def isValidImage (f : JsFile) : Bool :=
  jsStartsWith f.mimeType ("image/png") || jsStartsWith f.mimeType ("image/jpeg")

/-- The first '/'-separated segment of a path, i.e. the JS p.split of slash
at index 0: the characters before the first slash (the whole string when no
slash occurs). -/
def firstSegment (p : String) : String :=
  String.mk (p.data.takeWhile (fun c => c != '/'))

/-- App.tsx line 70: folder label from the first valid file.  An undefined
webkitRelativePath, or an empty first path segment, falls back to the default
label (the JS || operator treats the empty string as falsy). -/
def folderNameOf (f : JsFile) : String :=
  match f.webkitRelativePath with
  | none => "Simulado Trilingue"
  | some p =>
    let head := firstSegment p
    if head = "" then "Simulado Trilingue" else head

/-- App.tsx lines 72-136: processBatch reads the persisted cache, drains the
queue with the worker, clears isStillLoading on the live session, and then
auto-starts the exam only if the status captured by the enclosing closure was
LOADING.  capturedStatus is the component status from the render that created
handleFileUpload, i.e. the status before setStatus(LOADING) took effect. -/
def processBatch (net : String → Nat → Except JsError (Option String))
    (parse : String → Option AnalysisRecord)
    (capturedStatus : AppStatus) (folderName sessionId : String)
    (valid : List JsFile) (s : AppState) : AppState × List BatchEv :=
  let run := runWorker net parse { app := s, cache := s.cacheStore } valid
  let app1 : AppState := { run.1.app with
    session := run.1.app.session.map (fun sess => { sess with isStillLoading := false }) }
  if capturedStatus == AppStatus.LOADING && decide (0 < app1.questionsRef.length) then
    (startExam folderName sessionId app1, run.2)
  else
    (app1, run.2)

/-- App.tsx lines 48-138: the upload handler.  An empty file list returns at
once; otherwise the loading state is initialized, files are filtered to images,
and an empty filtered list aborts back to SETUP with an error message; else
the batch runs.  The status captured by processBatch is the status of the
render that invoked the handler, i.e. the status field of s at entry. -/
def handleFileUpload (net : String → Nat → Except JsError (Option String))
    (parse : String → Option AnalysisRecord) (sessionId : String)
    (files : List JsFile) (s : AppState) : AppState × List BatchEv :=
  if files.isEmpty then (s, [])
  else
    let s1 := { s with
      status := AppStatus.LOADING
      error := none
      isRateLimited := false
      processedCount := 0
      questionsRef := ([] : List QuestionData) }
    let valid := files.filter isValidImage
    let s2 := { s1 with totalToProcess := valid.length }
    match valid with
    | [] =>
      ({ s2 with
          error := some ("Nenhuma imagem válida encontrada.")
          status := AppStatus.SETUP }, [])
    | v0 :: _ =>
      processBatch net parse s.status (folderNameOf v0) sessionId valid s2

/-! Concrete sample values used by the witness and counterexample theorems. -/

/-- A sample analysis record. -/
def wRecord : AnalysisRecord :=
  { question := { pt := "p", en := "e", es := "s" }
    options := { pt := [("A", "x")], en := [("A", "x")], es := [("A", "x")] }
    correctAnswer := "A"
    explanations := { pt := "p", en := "e", es := "s" } }

/-- A quota-exhaustion error as the remote service reports it. -/
def wQuotaErr : JsError := { message := "429 RESOURCE_EXHAUSTED", status := some 429 }

/-- A transient 5xx error. -/
def wServerErr : JsError := { message := "Internal Server Error", status := some 503 }

/-- A non-retryable unknown error. -/
def wBoomErr : JsError := { message := "boom", status := none }

/-- A parse oracle that accepts exactly the text GOOD. -/
def wParse : String → Option AnalysisRecord :=
  fun t => if t = "GOOD" then some wRecord else none

/-- A remote oracle that always succeeds. -/
def wNetOk : String → Nat → Except JsError (Option String) :=
  fun _ _ => Except.ok (some "GOOD")

/-- A remote oracle that always throws a non-retryable error. -/
def wNetFail : String → Nat → Except JsError (Option String) :=
  fun _ _ => Except.error wBoomErr

/-- A remote oracle whose first attempt hits the quota and whose later
attempts succeed. -/
def wNetQuotaOnce : String → Nat → Except JsError (Option String) :=
  fun _ i => if i = 0 then Except.error wQuotaErr else Except.ok (some "GOOD")

/-- A remote oracle that permanently fails for the payload of file c.png and
succeeds for every other payload. -/
def wNetMixed : String → Nat → Except JsError (Option String) :=
  fun b _ => if b = "IMGc.png" then Except.error wBoomErr else Except.ok (some "GOOD")

/-- An attempt oracle failing with quota errors on attempts 0 and 1. -/
def wFnQuota : Nat → Except JsError AnalysisRecord :=
  fun i => if i < 2 then Except.error wQuotaErr else Except.ok wRecord

/-- An attempt oracle failing with server errors on attempts 0 and 1. -/
def wFnServer : Nat → Except JsError AnalysisRecord :=
  fun i => if i < 2 then Except.error wServerErr else Except.ok wRecord

/-- A sample image file with the given name. -/
def wFile (n : String) : JsFile :=
  { name := n, size := 10, mimeType := "image/png", base64 := "IMG" ++ n,
    webkitRelativePath := none }

/-- A non-image file. -/
def wFileTxt : JsFile :=
  { name := "notes.txt", size := 3, mimeType := "text/plain", base64 := "TXT",
    webkitRelativePath := none }

/-- The initial component state of App.tsx. -/
def wAppInit : AppState :=
  { status := AppStatus.SETUP, session := none, history := [], processedCount := 0,
    totalToProcess := 0, currentFilePath := "", error := none, isRateLimited := false,
    questionsRef := [], cacheStore := [] }

/-- A worker state with an empty cache. -/
def wWsInit : WorkerState := { app := wAppInit, cache := [] }

/-- A worker state whose cache already holds the fingerprint of a.png. -/
def wWsHit : WorkerState :=
  { app := wAppInit, cache := [(cacheId (wFile "a.png"), wRecord)] }


/-- A finished-loading session with 9 questions and score 7, cursor on the
last question. -/
def wSession9 : ExamSession :=
  { id := "s9", folderName := "F", questions := List.replicate 9 (mkQuestion "q" "i" wRecord),
    currentIndex := 8, score := 7, answers := [], isFinished := false, isStillLoading := false }

/-- An app state in the exam over wSession9. -/
def wApp9 : AppState :=
  { wAppInit with status := AppStatus.EXAM, session := some wSession9 }

/-- The session startExam builds from an empty questionsRef. -/
def wEmptySession : ExamSession :=
  { id := "t0", folderName := "Simulado", questions := [], currentIndex := 0,
    score := 0, answers := [], isFinished := false, isStillLoading := false }

/-- The session data-model invariant of the spec: the cursor is a valid index
into questions, or equals the question count only when the session is
finished. -/
def sessionInvariant (sess : ExamSession) : Prop :=
  sess.currentIndex < sess.questions.length ∨
    (sess.currentIndex = sess.questions.length ∧ sess.isFinished = true)


/-- Whether the analysis invocation for a file ends in success. -/
def analysisOk (net : String → Nat → Except JsError (Option String))
    (parse : String → Option AnalysisRecord) (g : JsFile) : Bool :=
  match (analyzeQuestionImage (net g.base64) parse).result with
  | Except.ok _ => true
  | Except.error _ => false

theorem retryAux_ok {α : Type} (fn : Nat → Except JsError α) (retries fuel i : Nat)
    (delay : ℚ) (a : α) (hfn : fn i = Except.ok a) :
    retryAux fn retries fuel i delay =
      { result := Except.ok a, invocations := 1, waits := [] } := by
  cases fuel <;> simp only [retryAux, hfn]

theorem retryAux_throw {α : Type} (fn : Nat → Except JsError α) (retries fuel i : Nat)
    (delay : ℚ) (e : JsError)
    (hc : ¬ (i < retries - 1 ∧ isRetryable e = true))
    (hfn : fn i = Except.error e) :
    retryAux fn retries (fuel + 1) i delay =
      { result := Except.error e, invocations := 1, waits := [] } := by
  simp only [retryAux, hfn, if_neg hc]

theorem retryAux_retry {α : Type} (fn : Nat → Except JsError α) (retries fuel i : Nat)
    (delay : ℚ) (e : JsError) (hi : i < retries - 1)
    (hr : isRetryable e = true) (hfn : fn i = Except.error e) :
    retryAux fn retries (fuel + 1) i delay =
      { result := (retryAux fn retries fuel (i + 1) (delay * 2)).result,
        invocations := (retryAux fn retries fuel (i + 1) (delay * 2)).invocations + 1,
        waits := (if isQuotaExceeded e then delay * ((i : ℚ) + 3 / 2) else delay) ::
          (retryAux fn retries fuel (i + 1) (delay * 2)).waits } := by
  simp only [retryAux, hfn, if_pos (And.intro hi hr)]

theorem alistLookup_insert_self {β : Type} (l : List (String × β)) (k : String) (v : β) :
    alistLookup (alistInsert l k v) k = some v := by
  induction l with
  | nil => simp [alistInsert, alistLookup]
  | cons p t ih =>
    by_cases h : p.1 = k
    · simp [alistInsert, alistLookup, h]
    · simp [alistInsert, alistLookup, h, ih]

theorem alistLookup_insert_ne {β : Type} (l : List (String × β)) (k : String) (v : β)
    (key : String) (h : key ≠ k) :
    alistLookup (alistInsert l k v) key = alistLookup l key := by
  have hne : ¬ k = key := fun hk => h hk.symm
  induction l with
  | nil => simp [alistInsert, alistLookup, hne]
  | cons p t ih =>
    obtain ⟨a, b⟩ := p
    by_cases hp : a = k
    · subst hp
      simp [alistInsert, alistLookup, hne]
    · by_cases hk2 : a = key
      · simp [alistInsert, alistLookup, hp, hk2, h]
      · simp [alistInsert, alistLookup, hp, hk2, ih]

theorem alistLookup_insert_ne_none {β : Type} (l : List (String × β)) (k : String) (v : β)
    (key : String) (h : alistLookup l key ≠ none) :
    alistLookup (alistInsert l k v) key ≠ none := by
  by_cases hk : key = k
  · subst hk
    rw [alistLookup_insert_self]
    exact Option.some_ne_none v
  · rw [alistLookup_insert_ne l k v key hk]
    exact h
theorem processFile_hit (net : String → Nat → Except JsError (Option String))
    (parse : String → Option AnalysisRecord) (ws : WorkerState) (f : JsFile)
    (r : AnalysisRecord) (h : alistLookup ws.cache (cacheId f) = some r) :
    processFile net parse ws f =
      ({ app := { ws.app with
            currentFilePath := f.webkitRelativePath.getD f.name
            questionsRef := ws.app.questionsRef ++
              [mkQuestion ("q-" ++ toString ws.app.questionsRef.length) f.base64 r]
            session := ws.app.session.map (fun sess => { sess with
              questions := ws.app.questionsRef ++
                [mkQuestion ("q-" ++ toString ws.app.questionsRef.length) f.base64 r] })
            processedCount := ws.app.processedCount + 1 }
         cache := ws.cache },
       [BatchEv.countProcessed]) := by
  simp only [processFile, h]

theorem processFile_miss_ok (net : String → Nat → Except JsError (Option String))
    (parse : String → Option AnalysisRecord) (ws : WorkerState) (f : JsFile)
    (r : AnalysisRecord) (h : alistLookup ws.cache (cacheId f) = none)
    (hok : (analyzeQuestionImage (net f.base64) parse).result = Except.ok r) :
    processFile net parse ws f =
      ({ app := { ws.app with
            currentFilePath := f.webkitRelativePath.getD f.name
            cacheStore := alistInsert ws.cache (cacheId f) r
            questionsRef := ws.app.questionsRef ++
              [mkQuestion ("q-" ++ toString ws.app.questionsRef.length) f.base64 r]
            session := ws.app.session.map (fun sess => { sess with
              questions := ws.app.questionsRef ++
                [mkQuestion ("q-" ++ toString ws.app.questionsRef.length) f.base64 r] })
            processedCount := ws.app.processedCount + 1 }
         cache := alistInsert ws.cache (cacheId f) r },
       List.replicate (analyzeQuestionImage (net f.base64) parse).invocations
           (BatchEv.remoteCall (cacheId f)) ++
         [BatchEv.persistPut (cacheId f), BatchEv.countProcessed]) := by
  simp only [processFile, h, hok]

theorem processFile_miss_err (net : String → Nat → Except JsError (Option String))
    (parse : String → Option AnalysisRecord) (ws : WorkerState) (f : JsFile)
    (e : JsError) (h : alistLookup ws.cache (cacheId f) = none)
    (herr : (analyzeQuestionImage (net f.base64) parse).result = Except.error e) :
    processFile net parse ws f =
      ({ app := { ws.app with
            currentFilePath := f.webkitRelativePath.getD f.name
            isRateLimited := ws.app.isRateLimited || workerSawRateLimit e
            processedCount := ws.app.processedCount + 1 }
         cache := ws.cache },
       List.replicate (analyzeQuestionImage (net f.base64) parse).invocations
           (BatchEv.remoteCall (cacheId f)) ++
         [BatchEv.countProcessed]) := by
  simp only [processFile, h, herr]

theorem runWorker_nil (net : String → Nat → Except JsError (Option String))
    (parse : String → Option AnalysisRecord) (ws : WorkerState) :
    runWorker net parse ws [] = (ws, []) := rfl

theorem runWorker_cons (net : String → Nat → Except JsError (Option String))
    (parse : String → Option AnalysisRecord) (ws : WorkerState) (f : JsFile)
    (fs : List JsFile) :
    runWorker net parse ws (f :: fs) =
      ((runWorker net parse (processFile net parse ws f).1 fs).1,
       (processFile net parse ws f).2 ++
         (runWorker net parse (processFile net parse ws f).1 fs).2) := rfl

theorem processFile_cache_mono (net : String → Nat → Except JsError (Option String))
    (parse : String → Option AnalysisRecord) (ws : WorkerState) (f : JsFile)
    (key : String) (h : alistLookup ws.cache key ≠ none) :
    alistLookup (processFile net parse ws f).1.cache key ≠ none := by
  rcases hl : alistLookup ws.cache (cacheId f) with _ | r
  · rcases hres : (analyzeQuestionImage (net f.base64) parse).result with e | r
    · rw [processFile_miss_err net parse ws f e hl hres]
      exact h
    · rw [processFile_miss_ok net parse ws f r hl hres]
      exact alistLookup_insert_ne_none ws.cache (cacheId f) r key h
  · rw [processFile_hit net parse ws f r hl]
    exact h

theorem runWorker_cache_mono (net : String → Nat → Except JsError (Option String))
    (parse : String → Option AnalysisRecord) :
    ∀ (files : List JsFile) (ws : WorkerState) (key : String),
      alistLookup ws.cache key ≠ none →
      alistLookup (runWorker net parse ws files).1.cache key ≠ none := by
  intro files
  induction files with
  | nil => intro ws key h; exact h
  | cons f fs ih =>
    intro ws key h
    rw [runWorker_cons]
    exact ih (processFile net parse ws f).1 key
      (processFile_cache_mono net parse ws f key h)

theorem runWorker_allhit_nocalls (net : String → Nat → Except JsError (Option String))
    (parse : String → Option AnalysisRecord) :
    ∀ (files : List JsFile) (ws : WorkerState),
      (∀ g ∈ files, alistLookup ws.cache (cacheId g) ≠ none) →
      remoteCallCount (runWorker net parse ws files).2 = 0 ∧
        (runWorker net parse ws files).1.cache = ws.cache := by
  intro files
  induction files with
  | nil =>
    intro ws _
    exact ⟨rfl, rfl⟩
  | cons f fs ih =>
    intro ws hcov
    obtain ⟨r, hr⟩ := Option.ne_none_iff_exists'.mp (hcov f (List.mem_cons_self f fs))
    have hstep := processFile_hit net parse ws f r hr
    have hcache : (processFile net parse ws f).1.cache = ws.cache := by rw [hstep]
    have hev : (processFile net parse ws f).2 = [BatchEv.countProcessed] := by rw [hstep]
    have hrest := ih (processFile net parse ws f).1 (by
      intro g hg
      rw [hcache]
      exact hcov g (List.mem_cons_of_mem f hg))
    rw [runWorker_cons]
    refine ⟨?_, ?_⟩
    · rw [hev]
      simpa [remoteCallCount, isRemoteCallEv] using hrest.1
    · rw [hrest.2, hcache]

theorem runWorker_covers (net : String → Nat → Except JsError (Option String))
    (parse : String → Option AnalysisRecord) :
    ∀ (files : List JsFile) (ws : WorkerState),
      (∀ g ∈ files, alistLookup ws.cache (cacheId g) ≠ none ∨
        ∃ r, (analyzeQuestionImage (net g.base64) parse).result = Except.ok r) →
      ∀ g ∈ files, alistLookup (runWorker net parse ws files).1.cache (cacheId g) ≠ none := by
  intro files
  induction files with
  | nil =>
    intro ws _ g hg
    cases hg
  | cons f fs ih =>
    intro ws hcov g hg
    rw [runWorker_cons]
    rcases List.mem_cons.mp hg with hgf | hgfs
    · subst hgf
      have hstep : alistLookup (processFile net parse ws g).1.cache (cacheId g) ≠ none := by
        rcases hl : alistLookup ws.cache (cacheId g) with _ | r
        · rcases hcov g (List.mem_cons_self g fs) with hnn | ⟨r, hok⟩
          · exact absurd hl hnn
          · rw [processFile_miss_ok net parse ws g r hl hok]
            show alistLookup (alistInsert ws.cache (cacheId g) r) (cacheId g) ≠ none
            rw [alistLookup_insert_self]
            exact Option.some_ne_none r
        · rw [processFile_hit net parse ws g r hl]
          show alistLookup ws.cache (cacheId g) ≠ none
          rw [hl]
          exact Option.some_ne_none r
      exact runWorker_cache_mono net parse fs (processFile net parse ws g).1 (cacheId g) hstep
    · apply ih (processFile net parse ws f).1 ?_ g hgfs
      intro g' hg'
      rcases hcov g' (List.mem_cons_of_mem f hg') with hnn | hok
      · exact Or.inl (processFile_cache_mono net parse ws f (cacheId g') hnn)
      · exact Or.inr hok

/-- Claim C2: when every attempt of an analysis invocation fails with a
retryable error (quota exhaustion or a 5xx status), the underlying call is
invoked exactly 5 times, the error of the 5th attempt is thrown to the
caller, and no 6th attempt is made. -/
theorem C2_retry_ceiling {α : Type} (fn : Nat → Except JsError α)
    (errs : Nat → JsError) (d : ℚ)
    (hfn : ∀ i, i < 5 → fn i = Except.error (errs i))
    (hr : ∀ i, i < 5 → isRetryable (errs i) = true) :
    (retryWithBackoff fn 5 d).invocations = 5 ∧
    (retryWithBackoff fn 5 d).result = Except.error (errs 4) := by
  have h0 := retryAux_retry fn 5 4 0 d (errs 0) (by norm_num) (hr 0 (by norm_num)) (hfn 0 (by norm_num))
  have h1 := retryAux_retry fn 5 3 1 (d * 2) (errs 1) (by norm_num) (hr 1 (by norm_num)) (hfn 1 (by norm_num))
  have h2 := retryAux_retry fn 5 2 2 (d * 2 * 2) (errs 2) (by norm_num) (hr 2 (by norm_num)) (hfn 2 (by norm_num))
  have h3 := retryAux_retry fn 5 1 3 (d * 2 * 2 * 2) (errs 3) (by norm_num) (hr 3 (by norm_num)) (hfn 3 (by norm_num))
  have h4 := retryAux_throw fn 5 0 4 (d * 2 * 2 * 2 * 2) (errs 4)
    (by rintro ⟨h41, _⟩; omega) (hfn 4 (by norm_num))
  have e5 : retryWithBackoff fn 5 d = retryAux fn 5 (4 + 1) 0 d := rfl
  have e4 : retryAux fn 5 4 1 (d * 2) = retryAux fn 5 (3 + 1) 1 (d * 2) := rfl
  have e3 : retryAux fn 5 3 2 (d * 2 * 2) = retryAux fn 5 (2 + 1) 2 (d * 2 * 2) := rfl
  have e2 : retryAux fn 5 2 3 (d * 2 * 2 * 2) = retryAux fn 5 (1 + 1) 3 (d * 2 * 2 * 2) := rfl
  have e1 : retryAux fn 5 1 4 (d * 2 * 2 * 2 * 2) = retryAux fn 5 (0 + 1) 4 (d * 2 * 2 * 2 * 2) := rfl
  rw [e5, h0, e4, h1, e3, h2, e2, h3, e1, h4]
  exact ⟨rfl, rfl⟩

/-- Claim C3: the base backoff delay starts at the initial value and doubles
after every retried attempt; a quota failure at 0-based attempt i waits the
current base delay scaled by (i + 1.5), a server error waits the unscaled base
delay.  For two consecutive quota failures the observed waits are
initialDelay * 1.5 and (2 * initialDelay) * 2.5; for two consecutive server
errors they are initialDelay and 2 * initialDelay. -/
theorem C3_backoff_schedule {α : Type} (d : ℚ)
    (fn : Nat → Except JsError α) (e0 e1 : JsError) (a : α)
    (hfn0 : fn 0 = Except.error e0) (hfn1 : fn 1 = Except.error e1)
    (hfn2 : fn 2 = Except.ok a)
    (hq0 : isQuotaExceeded e0 = true) (hq1 : isQuotaExceeded e1 = true)
    (gn : Nat → Except JsError α) (s0 s1 : JsError) (b : α)
    (hgn0 : gn 0 = Except.error s0) (hgn1 : gn 1 = Except.error s1)
    (hgn2 : gn 2 = Except.ok b)
    (hs0 : isQuotaExceeded s0 = false) (hsrv0 : isServerStatus s0 = true)
    (hs1 : isQuotaExceeded s1 = false) (hsrv1 : isServerStatus s1 = true) :
    (retryWithBackoff fn 5 d).waits = [d * (3 / 2), 2 * d * (5 / 2)] ∧
    (retryWithBackoff fn 5 d).invocations = 3 ∧
    (retryWithBackoff fn 5 d).result = Except.ok a ∧
    (retryWithBackoff gn 5 d).waits = [d, 2 * d] := by
  have hr0 : isRetryable e0 = true := by simp [isRetryable, hq0]
  have hr1 : isRetryable e1 = true := by simp [isRetryable, hq1]
  have gr0 : isRetryable s0 = true := by simp [isRetryable, hsrv0]
  have gr1 : isRetryable s1 = true := by simp [isRetryable, hsrv1]
  have h0 := retryAux_retry fn 5 4 0 d e0 (by norm_num) hr0 hfn0
  have h1 := retryAux_retry fn 5 3 1 (d * 2) e1 (by norm_num) hr1 hfn1
  have h2 := retryAux_ok fn 5 3 2 (d * 2 * 2) a hfn2
  have g0 := retryAux_retry gn 5 4 0 d s0 (by norm_num) gr0 hgn0
  have g1 := retryAux_retry gn 5 3 1 (d * 2) s1 (by norm_num) gr1 hgn1
  have g2 := retryAux_ok gn 5 3 2 (d * 2 * 2) b hgn2
  have e5 : retryWithBackoff fn 5 d = retryAux fn 5 (4 + 1) 0 d := rfl
  have e4 : retryAux fn 5 4 1 (d * 2) = retryAux fn 5 (3 + 1) 1 (d * 2) := rfl
  have f5 : retryWithBackoff gn 5 d = retryAux gn 5 (4 + 1) 0 d := rfl
  have f4 : retryAux gn 5 4 1 (d * 2) = retryAux gn 5 (3 + 1) 1 (d * 2) := rfl
  rw [e5, h0, e4, h1, h2, f5, g0, f4, g1, g2]
  refine ⟨?_, rfl, rfl, ?_⟩
  · show (if isQuotaExceeded e0 then d * ((0 : ℚ) + 3 / 2) else d) ::
      (if isQuotaExceeded e1 then d * 2 * ((1 : ℚ) + 3 / 2) else d * 2) :: [] =
      [d * (3 / 2), 2 * d * (5 / 2)]
    rw [if_pos hq0, if_pos hq1]
    norm_num
    ring_nf
  · show (if isQuotaExceeded s0 then d * ((0 : ℚ) + 3 / 2) else d) ::
      (if isQuotaExceeded s1 then d * 2 * ((1 : ℚ) + 3 / 2) else d * 2) :: [] =
      [d, 2 * d]
    rw [if_neg (by rw [hs0]; exact Bool.false_ne_true), if_neg (by rw [hs1]; exact Bool.false_ne_true)]
    norm_num
    ring

/-- Claim C7: a remote call that returns successfully but with an empty or
unparsable payload yields an error that is thrown to the caller immediately,
with exactly one attempt made and no retry, because that error is not
classified retryable. -/
theorem C7_malformed_not_retried (remote : Nat → Except JsError (Option String))
    (parse : String → Option AnalysisRecord) (text : Option String) (e : JsError)
    (h0 : remote 0 = Except.ok text)
    (hbad : validateResponse text parse = Except.error e) :
    (analyzeQuestionImage remote parse).result = Except.error e ∧
    (analyzeQuestionImage remote parse).invocations = 1 ∧
    isRetryable e = false := by
  have he : e = malformedError := by
    cases text with
    | none =>
      simp only [validateResponse] at hbad
      exact (Except.error.inj hbad).symm
    | some t =>
      simp only [validateResponse] at hbad
      by_cases ht : t = ""
      · rw [if_pos ht] at hbad
        exact (Except.error.inj hbad).symm
      · rw [if_neg ht] at hbad
        rcases hp : parse t with _ | r
        · rw [hp] at hbad
          exact (Except.error.inj hbad).symm
        · rw [hp] at hbad
          simp at hbad
  have hattempt : analyzeAttempt remote parse 0 = Except.error e := by
    simp [analyzeAttempt, h0, hbad]
  have hnr : isRetryable e = false := by rw [he]; decide
  have hthrow := retryAux_throw (analyzeAttempt remote parse) 5 4 0 3000 e
    (by rintro ⟨_, hcr⟩; rw [hnr] at hcr; cases hcr) hattempt
  have e5 : analyzeQuestionImage remote parse =
      retryAux (analyzeAttempt remote parse) 5 (4 + 1) 0 3000 := rfl
  refine ⟨?_, ?_, hnr⟩
  · rw [e5, hthrow]
  · rw [e5, hthrow]

/-- Witness for C2 at a concrete always-quota-failing attempt oracle. -/
theorem C2_retry_ceiling_witness :
    (retryWithBackoff (fun _ => (Except.error wQuotaErr : Except JsError AnalysisRecord)) 5 3000).invocations = 5 ∧
    (retryWithBackoff (fun _ => (Except.error wQuotaErr : Except JsError AnalysisRecord)) 5 3000).result = Except.error wQuotaErr := by
  have hq : isRetryable wQuotaErr = true := by decide
  exact C2_retry_ceiling (fun _ => Except.error wQuotaErr) (fun _ => wQuotaErr) 3000
    (fun _ _ => rfl) (fun _ _ => hq)

/-- Witness for C3 at concrete quota-failing and server-failing oracles with
initialDelay 3000: the quota waits are 4500 then 15000, the server waits are
3000 then 6000. -/
theorem C3_backoff_schedule_witness :
    (retryWithBackoff wFnQuota 5 3000).waits = [4500, 15000] ∧
    (retryWithBackoff wFnQuota 5 3000).invocations = 3 ∧
    (retryWithBackoff wFnServer 5 3000).waits = [3000, 6000] := by
  have h := C3_backoff_schedule 3000 wFnQuota wQuotaErr wQuotaErr wRecord
    rfl rfl rfl (by decide) (by decide)
    wFnServer wServerErr wServerErr wRecord rfl rfl rfl
    (by decide) (by decide) (by decide) (by decide)
  refine ⟨?_, h.2.1, ?_⟩
  · rw [h.1]
    norm_num
  · rw [h.2.2.2]
    norm_num

/-- Witness for C7 at a concrete oracle whose response text BAD is
unparsable. -/
theorem C7_malformed_not_retried_witness :
    (analyzeQuestionImage (fun _ => Except.ok (some "BAD")) wParse).result = Except.error malformedError ∧
    (analyzeQuestionImage (fun _ => Except.ok (some "BAD")) wParse).invocations = 1 ∧
    isRetryable malformedError = false :=
  C7_malformed_not_retried (fun _ => Except.ok (some "BAD")) wParse (some "BAD")
    malformedError rfl rfl

/-- Claim C10: a job whose analysis invocation ultimately throws leaves the
in-memory cache and the persisted cache unchanged, creates no question, emits
no persist event, and still increments processedCount exactly once. -/
theorem C10_failed_job_state_unchanged (net : String → Nat → Except JsError (Option String))
    (parse : String → Option AnalysisRecord) (ws : WorkerState) (f : JsFile) (e : JsError)
    (hmiss : alistLookup ws.cache (cacheId f) = none)
    (herr : (analyzeQuestionImage (net f.base64) parse).result = Except.error e) :
    (processFile net parse ws f).1.cache = ws.cache ∧
    (processFile net parse ws f).1.app.cacheStore = ws.app.cacheStore ∧
    (processFile net parse ws f).1.app.questionsRef = ws.app.questionsRef ∧
    (processFile net parse ws f).1.app.processedCount = ws.app.processedCount + 1 ∧
    (processFile net parse ws f).2.filter isPersistEv = [] := by
  rw [processFile_miss_err net parse ws f e hmiss herr]
  refine ⟨rfl, rfl, rfl, rfl, ?_⟩
  simp [List.filter_append, isPersistEv, List.filter_replicate]

/-- Witness for C10 at a concrete permanently failing file. -/
theorem C10_witness :
    (processFile wNetFail wParse wWsInit (wFile "a.png")).1.cache = wWsInit.cache ∧
    (processFile wNetFail wParse wWsInit (wFile "a.png")).1.app.cacheStore = wWsInit.app.cacheStore ∧
    (processFile wNetFail wParse wWsInit (wFile "a.png")).1.app.questionsRef = wWsInit.app.questionsRef ∧
    (processFile wNetFail wParse wWsInit (wFile "a.png")).1.app.processedCount = wWsInit.app.processedCount + 1 ∧
    (processFile wNetFail wParse wWsInit (wFile "a.png")).2.filter isPersistEv = [] :=
  C10_failed_job_state_unchanged wNetFail wParse wWsInit (wFile "a.png") wBoomErr
    (by decide) rfl

/-- Counterexample to claim C4 as stated: a batch whose single invocation
fails attempt 0 with a quota-classified error but succeeds on retry ends with
the shared rate-limit flag still false, because App.tsx sets the flag only in
the worker catch block, which runs only when the whole invocation throws. -/
theorem C4_counterexample :
    isQuotaExceeded wQuotaErr = true ∧
    wNetQuotaOnce (wFile "a.png").base64 0 = Except.error wQuotaErr ∧
    (analyzeQuestionImage (wNetQuotaOnce (wFile "a.png").base64) wParse).result =
      Except.ok wRecord ∧
    (handleFileUpload wNetQuotaOnce wParse "sid" [wFile "a.png"] wAppInit).1.isRateLimited = false := by
  exact ⟨by decide, rfl, rfl, by decide⟩

theorem processFile_flag_mono (net : String → Nat → Except JsError (Option String))
    (parse : String → Option AnalysisRecord) (ws : WorkerState) (f : JsFile)
    (h : ws.app.isRateLimited = true) :
    (processFile net parse ws f).1.app.isRateLimited = true := by
  rcases hl : alistLookup ws.cache (cacheId f) with _ | r
  · rcases hres : (analyzeQuestionImage (net f.base64) parse).result with e2 | r2
    · rw [processFile_miss_err net parse ws f e2 hl hres]
      show (ws.app.isRateLimited || workerSawRateLimit e2) = true
      rw [h]
      rfl
    · rw [processFile_miss_ok net parse ws f r2 hl hres]
      exact h
  · rw [processFile_hit net parse ws f r hl]
    exact h

theorem runWorker_flag_mono (net : String → Nat → Except JsError (Option String))
    (parse : String → Option AnalysisRecord) :
    ∀ (files : List JsFile) (ws : WorkerState), ws.app.isRateLimited = true →
      (runWorker net parse ws files).1.app.isRateLimited = true := by
  intro files
  induction files with
  | nil => intro ws h; exact h
  | cons f fs ih =>
    intro ws h
    rw [runWorker_cons]
    exact ih (processFile net parse ws f).1 (processFile_flag_mono net parse ws f h)

/-- Claim C4 amended: the shared rate-limit flag is set exactly when a
non-cached job finally fails (after all retries) with an error whose message
mentions 429 or RESOURCE_EXHAUSTED; once set it is never cleared during the
batch; and handleFileUpload resets it at the start of a new batch, so the run
is independent of the incoming flag value. -/
theorem C4_rate_limit_flag (net : String → Nat → Except JsError (Option String))
    (parse : String → Option AnalysisRecord) (ws : WorkerState) (f : JsFile)
    (files : List JsFile) (s : AppState) (sid : String) (b : Bool) :
    ((processFile net parse ws f).1.app.isRateLimited =
      (ws.app.isRateLimited ||
        match alistLookup ws.cache (cacheId f),
            (analyzeQuestionImage (net f.base64) parse).result with
        | none, Except.error e => workerSawRateLimit e
        | _, _ => false)) ∧
    (ws.app.isRateLimited = true →
      (runWorker net parse ws files).1.app.isRateLimited = true) ∧
    (files ≠ [] →
      handleFileUpload net parse sid files { s with isRateLimited := b } =
        handleFileUpload net parse sid files s) := by
  refine ⟨?_, runWorker_flag_mono net parse files ws, ?_⟩
  · rcases hl : alistLookup ws.cache (cacheId f) with _ | r
    · rcases hres : (analyzeQuestionImage (net f.base64) parse).result with e2 | r2
      · rw [processFile_miss_err net parse ws f e2 hl hres]
      · rw [processFile_miss_ok net parse ws f r2 hl hres]
        simp
    · rw [processFile_hit net parse ws f r hl]
      simp
  · intro hne
    cases files with
    | nil => exact absurd rfl hne
    | cons f0 fs0 => rfl

/-- Witness for the amended C4 at concrete inputs. -/
theorem C4_rate_limit_flag_witness :
    (processFile wNetFail wParse wWsInit (wFile "a.png")).1.app.isRateLimited = false ∧
    handleFileUpload wNetFail wParse "sid" [wFile "a.png"] { wAppInit with isRateLimited := true } =
      handleFileUpload wNetFail wParse "sid" [wFile "a.png"] wAppInit := by
  have h := C4_rate_limit_flag wNetFail wParse wWsInit (wFile "a.png")
    [wFile "a.png"] wAppInit "sid" true
  refine ⟨?_, h.2.2 (by simp)⟩
  rw [h.1]
  decide

/-- Claim C6: advancing past the last question of a still-loading session is
a no-op leaving the whole state (hence the cursor) unchanged; once loading has
finished it moves to RESULT and prepends a HistoryEntry whose accuracy is
round(100 * score / total). -/
theorem C6_finalization_gate (now : String) (s : AppState) (sess : ExamSession)
    (hs : s.session = some sess)
    (hlast : sess.questions.length ≤ sess.currentIndex + 1) :
    (sess.isStillLoading = true → handleNext now s = s) ∧
    (sess.isStillLoading = false →
      (handleNext now s).status = AppStatus.RESULT ∧
      (handleNext now s).history = saveToHistory now sess :: s.history ∧
      (saveToHistory now sess).total = sess.questions.length ∧
      (saveToHistory now sess).accuracy =
        jsRound (100 * (sess.score : ℚ) / (sess.questions.length : ℚ))) := by
  constructor
  · intro hload
    simp [handleNext, hs, hlast, hload]
  · intro hload
    have hnext : handleNext now s =
        { s with history := saveToHistory now sess :: s.history,
                 status := AppStatus.RESULT } := by
      simp [handleNext, hs, hlast, hload]
    rw [hnext]
    refine ⟨rfl, rfl, rfl, ?_⟩
    show jsRound (((sess.score : ℚ) / (sess.questions.length : ℚ)) * 100) =
      jsRound (100 * (sess.score : ℚ) / (sess.questions.length : ℚ))
    apply congrArg
    ring

/-- Witness for C6: the still-loading no-op, and score 7 of 9 giving
accuracy 78. -/
theorem C6_finalization_gate_witness :
    handleNext "d" { wApp9 with session := some { wSession9 with isStillLoading := true } } =
      { wApp9 with session := some { wSession9 with isStillLoading := true } } ∧
    (handleNext "d" wApp9).status = AppStatus.RESULT ∧
    (saveToHistory "d" wSession9).accuracy = 78 := by
  have h1 := C6_finalization_gate "d"
    { wApp9 with session := some { wSession9 with isStillLoading := true } }
    { wSession9 with isStillLoading := true } rfl (by decide)
  have h2 := C6_finalization_gate "d" wApp9 wSession9 rfl (by decide)
  refine ⟨h1.1 rfl, (h2.2 rfl).1, ?_⟩
  have hacc := (h2.2 rfl).2.2.2
  rw [hacc]
  show jsRound (100 * (7 : ℚ) / (9 : ℚ)) = 78
  norm_num [jsRound]

/-- Claim C8, evaluated at the failing input: one permanently failing job
makes processedCount reach 1 with an empty questionsRef (which enables the
start button), and App.tsx startExam — which, unlike the part_000 revision,
has no emptiness guard — then builds a session whose cursor 0 equals the
question count 0 while the session is not finished, violating the cursor
invariant. -/
theorem C8_startExam_empty_session_bug :
    (handleFileUpload wNetFail wParse "sid" [wFile "a.png"] wAppInit).1.processedCount = 1 ∧
    (handleFileUpload wNetFail wParse "sid" [wFile "a.png"] wAppInit).1.questionsRef = [] ∧
    (startExam "Simulado" "t0"
        (handleFileUpload wNetFail wParse "sid" [wFile "a.png"] wAppInit).1).session =
      some wEmptySession ∧
    ¬ sessionInvariant wEmptySession := by
  refine ⟨by decide, by decide, by decide, ?_⟩
  simp [sessionInvariant, wEmptySession]

/-- Counterexample to claim C9 as stated: with a nonempty upload containing
no valid images the pipeline does issue no calls and enqueue no jobs, but it
does not complete with an empty session — no session exists at all; the app
returns to SETUP with an error message. -/
theorem C9_counterexample :
    ¬ (∃ sess, (handleFileUpload wNetOk wParse "sid" [wFileTxt] wAppInit).1.session = some sess ∧
        sess.questions = []) ∧
    (handleFileUpload wNetOk wParse "sid" [wFileTxt] wAppInit).1.session = none ∧
    (handleFileUpload wNetOk wParse "sid" [wFileTxt] wAppInit).1.status = AppStatus.SETUP ∧
    (handleFileUpload wNetOk wParse "sid" [wFileTxt] wAppInit).1.error =
      some ("Nenhuma imagem válida encontrada.") ∧
    (handleFileUpload wNetOk wParse "sid" [wFileTxt] wAppInit).2 = [] := by
  have hn : (handleFileUpload wNetOk wParse "sid" [wFileTxt] wAppInit).1.session = none := by
    decide
  refine ⟨?_, hn, by decide, by decide, by decide⟩
  rintro ⟨sess, hsome, _⟩
  rw [hn] at hsome
  exact Option.noConfusion hsome

/-- Claim C9 amended: when the upload contains no valid image entries the
pipeline completes immediately, issuing no remote calls and enqueuing no jobs,
and creates no session; an entirely empty file list leaves the state
untouched, while a nonempty list with no valid images resets to SETUP with an
error message and a zero totalToProcess. -/
theorem C9_no_valid_images (net : String → Nat → Except JsError (Option String))
    (parse : String → Option AnalysisRecord) (sid : String)
    (files : List JsFile) (s : AppState)
    (h : files.filter isValidImage = []) :
    (handleFileUpload net parse sid files s).2 = [] ∧
    (handleFileUpload net parse sid files s).1.session = s.session ∧
    (files = [] → (handleFileUpload net parse sid files s).1 = s) ∧
    (files ≠ [] →
      (handleFileUpload net parse sid files s).1.status = AppStatus.SETUP ∧
      (handleFileUpload net parse sid files s).1.error =
        some ("Nenhuma imagem válida encontrada.") ∧
      (handleFileUpload net parse sid files s).1.totalToProcess = 0 ∧
      (handleFileUpload net parse sid files s).1.processedCount = 0) := by
  cases files with
  | nil => exact ⟨rfl, rfl, fun _ => rfl, fun hne => absurd rfl hne⟩
  | cons f0 fs0 =>
    have hh : handleFileUpload net parse sid (f0 :: fs0) s =
        ({ status := AppStatus.SETUP
           session := s.session
           history := s.history
           processedCount := 0
           totalToProcess := 0
           currentFilePath := s.currentFilePath
           error := some ("Nenhuma imagem válida encontrada.")
           isRateLimited := false
           questionsRef := []
           cacheStore := s.cacheStore }, []) := by
      simp [handleFileUpload, h]
    rw [hh]
    exact ⟨rfl, rfl, fun hnil => absurd hnil (List.cons_ne_nil f0 fs0),
      fun _ => ⟨rfl, rfl, rfl, rfl⟩⟩

/-- Witness for the amended C9 at a single text file. -/
theorem C9_no_valid_images_witness :
    (handleFileUpload wNetOk wParse "sid" [wFileTxt] wAppInit).2 = [] ∧
    (handleFileUpload wNetOk wParse "sid" [wFileTxt] wAppInit).1.status = AppStatus.SETUP := by
  have h := C9_no_valid_images wNetOk wParse "sid" [wFileTxt] wAppInit (by decide)
  exact ⟨h.1, (h.2.2.2 (by simp)).1⟩

theorem processFile_processedCount (net : String → Nat → Except JsError (Option String))
    (parse : String → Option AnalysisRecord) (ws : WorkerState) (f : JsFile) :
    (processFile net parse ws f).1.app.processedCount = ws.app.processedCount + 1 := by
  rcases hl : alistLookup ws.cache (cacheId f) with _ | r
  · rcases hres : (analyzeQuestionImage (net f.base64) parse).result with e2 | r2
    · rw [processFile_miss_err net parse ws f e2 hl hres]
    · rw [processFile_miss_ok net parse ws f r2 hl hres]
  · rw [processFile_hit net parse ws f r hl]

theorem runWorker_processedCount (net : String → Nat → Except JsError (Option String))
    (parse : String → Option AnalysisRecord) :
    ∀ (files : List JsFile) (ws : WorkerState),
      (runWorker net parse ws files).1.app.processedCount =
        ws.app.processedCount + files.length := by
  intro files
  induction files with
  | nil => intro ws; rfl
  | cons f fs ih =>
    intro ws
    rw [runWorker_cons]
    show (runWorker net parse (processFile net parse ws f).1 fs).1.app.processedCount =
      ws.app.processedCount + (f :: fs).length
    rw [ih (processFile net parse ws f).1, processFile_processedCount net parse ws f]
    simp [Nat.add_assoc, Nat.add_comm]
    omega

theorem runWorker_fresh_images (net : String → Nat → Except JsError (Option String))
    (parse : String → Option AnalysisRecord) :
    ∀ (files : List JsFile) (ws : WorkerState),
      (∀ g ∈ files, alistLookup ws.cache (cacheId g) = none) →
      List.Pairwise (fun g g2 => cacheId g ≠ cacheId g2) files →
      ((runWorker net parse ws files).1.app.questionsRef.map QuestionData.image) =
        (ws.app.questionsRef.map QuestionData.image) ++
          (files.filter (analysisOk net parse)).map JsFile.base64 := by
  intro files
  induction files with
  | nil =>
    intro ws _ _
    simp [runWorker_nil]
  | cons f fs ih =>
    intro ws hfresh hpair
    obtain ⟨hhead, htail⟩ := List.pairwise_cons.mp hpair
    have hlf : alistLookup ws.cache (cacheId f) = none :=
      hfresh f (List.mem_cons_self f fs)
    rw [runWorker_cons]
    rcases hres : (analyzeQuestionImage (net f.base64) parse).result with e2 | r2
    · -- permanent failure: no question appended, cache unchanged
      have hstep := processFile_miss_err net parse ws f e2 hlf hres
      have hok : analysisOk net parse f = false := by
        simp [analysisOk, hres]
      have hrest := ih (processFile net parse ws f).1 (by
        intro g hg
        rw [hstep]
        exact hfresh g (List.mem_cons_of_mem f hg)) htail
      rw [hrest, hstep]
      simp [List.filter_cons, hok]
    · -- success: question for f appended, fingerprint inserted
      have hstep := processFile_miss_ok net parse ws f r2 hlf hres
      have hok : analysisOk net parse f = true := by
        simp [analysisOk, hres]
      have hrest := ih (processFile net parse ws f).1 (by
        intro g hg
        rw [hstep]
        show alistLookup (alistInsert ws.cache (cacheId f) r2) (cacheId g) = none
        rw [alistLookup_insert_ne ws.cache (cacheId f) r2 (cacheId g)
          (Ne.symm (hhead g hg))]
        exact hfresh g (List.mem_cons_of_mem f hg)) htail
      rw [hrest, hstep]
      simp [List.filter_cons, hok, mkQuestion]

/-- Claim C5: in a five-job batch over a fresh cache with pairwise distinct
fingerprints where exactly the third job permanently fails, the failure does
not abort the worker: processedCount reaches 5, the collected questions are
exactly those of jobs 1, 2, 4 and 5 (no placeholder), and a session started
afterwards holds exactly 4 questions. -/
theorem C5_partial_failure_isolation
    (net : String → Nat → Except JsError (Option String))
    (parse : String → Option AnalysisRecord)
    (a b c d e : JsFile) (ws : WorkerState)
    (ra rb rd re : AnalysisRecord) (err : JsError)
    (hwc : ws.cache = []) (hpc : ws.app.processedCount = 0)
    (hqr : ws.app.questionsRef = [])
    (hdist : List.Pairwise (fun g g2 => cacheId g ≠ cacheId g2) [a, b, c, d, e])
    (ha : (analyzeQuestionImage (net a.base64) parse).result = Except.ok ra)
    (hb : (analyzeQuestionImage (net b.base64) parse).result = Except.ok rb)
    (hc : (analyzeQuestionImage (net c.base64) parse).result = Except.error err)
    (hd : (analyzeQuestionImage (net d.base64) parse).result = Except.ok rd)
    (he : (analyzeQuestionImage (net e.base64) parse).result = Except.ok re)
    (nm sid : String) :
    (runWorker net parse ws [a, b, c, d, e]).1.app.processedCount = 5 ∧
    ((runWorker net parse ws [a, b, c, d, e]).1.app.questionsRef.map QuestionData.image) =
      [a.base64, b.base64, d.base64, e.base64] ∧
    (runWorker net parse ws [a, b, c, d, e]).1.app.questionsRef.length = 4 ∧
    ((startExam nm sid (runWorker net parse ws [a, b, c, d, e]).1.app).session.map
        (fun ss => ss.questions.length)) = some 4 := by
  have hfresh : ∀ g ∈ [a, b, c, d, e], alistLookup ws.cache (cacheId g) = none := by
    intro g _
    rw [hwc]
    rfl
  have himg := runWorker_fresh_images net parse [a, b, c, d, e] ws hfresh hdist
  have hcount := runWorker_processedCount net parse [a, b, c, d, e] ws
  have hoka : analysisOk net parse a = true := by simp [analysisOk, ha]
  have hokb : analysisOk net parse b = true := by simp [analysisOk, hb]
  have hokc : analysisOk net parse c = false := by simp [analysisOk, hc]
  have hokd : analysisOk net parse d = true := by simp [analysisOk, hd]
  have hoke : analysisOk net parse e = true := by simp [analysisOk, he]
  rw [hqr] at himg
  rw [show ([a, b, c, d, e].filter (analysisOk net parse)) = [a, b, d, e] by
    simp [List.filter_cons, hoka, hokb, hokc, hokd, hoke]] at himg
  simp only [List.map_nil, List.nil_append, List.map_cons] at himg
  have hlen : (runWorker net parse ws [a, b, c, d, e]).1.app.questionsRef.length = 4 := by
    have hl := congrArg List.length himg
    simpa using hl
  refine ⟨?_, by simpa using himg, hlen, ?_⟩
  · rw [hcount, hpc]
    rfl
  · show some ((runWorker net parse ws [a, b, c, d, e]).1.app.questionsRef.length) = some 4
    rw [hlen]

/-- Witness for C5 at five concrete files where only c.png fails. -/
theorem C5_partial_failure_isolation_witness :
    (runWorker wNetMixed wParse wWsInit
        [wFile "a.png", wFile "b.png", wFile "c.png", wFile "d.png", wFile "e.png"]).1.app.processedCount = 5 ∧
    ((runWorker wNetMixed wParse wWsInit
        [wFile "a.png", wFile "b.png", wFile "c.png", wFile "d.png", wFile "e.png"]).1.app.questionsRef.map
      QuestionData.image) =
      [(wFile "a.png").base64, (wFile "b.png").base64, (wFile "d.png").base64, (wFile "e.png").base64] ∧
    ((startExam "F" "t0" (runWorker wNetMixed wParse wWsInit
        [wFile "a.png", wFile "b.png", wFile "c.png", wFile "d.png", wFile "e.png"]).1.app).session.map
      (fun ss => ss.questions.length)) = some 4 := by
  have h := C5_partial_failure_isolation wNetMixed wParse
    (wFile "a.png") (wFile "b.png") (wFile "c.png") (wFile "d.png") (wFile "e.png")
    wWsInit wRecord wRecord wRecord wRecord wBoomErr
    rfl rfl rfl (by decide) rfl rfl rfl rfl rfl "F" "t0"
  exact ⟨h.1, h.2.1, h.2.2.2⟩

/-- Claim C1: a job whose fingerprint is cached at batch start issues zero
remote calls and builds its Question from the cached record; on a miss the
record is written to the persisted cache (the persistPut event) strictly
before the countProcessed event of the same job, and the written entry equals
the analysis result; a batch all of whose fingerprints are covered by the
cache issues zero remote calls in total; and a run in which every job either
hits the cache or analyzes successfully leaves every fingerprint of the folder
covered, so a rerun over the same folder issues no remote call for them. -/
theorem C1_idempotent_caching (net : String → Nat → Except JsError (Option String))
    (parse : String → Option AnalysisRecord) (ws : WorkerState) (f : JsFile)
    (files : List JsFile) (r : AnalysisRecord) :
    (alistLookup ws.cache (cacheId f) = some r →
      remoteCallCount (processFile net parse ws f).2 = 0 ∧
      (processFile net parse ws f).1.app.questionsRef =
        ws.app.questionsRef ++
          [mkQuestion ("q-" ++ toString ws.app.questionsRef.length) f.base64 r]) ∧
    (alistLookup ws.cache (cacheId f) = none →
      (analyzeQuestionImage (net f.base64) parse).result = Except.ok r →
      (processFile net parse ws f).2 =
        List.replicate (analyzeQuestionImage (net f.base64) parse).invocations
            (BatchEv.remoteCall (cacheId f)) ++
          [BatchEv.persistPut (cacheId f), BatchEv.countProcessed] ∧
      (processFile net parse ws f).1.app.cacheStore =
        alistInsert ws.cache (cacheId f) r ∧
      alistLookup (processFile net parse ws f).1.app.cacheStore (cacheId f) = some r) ∧
    ((∀ g ∈ files, alistLookup ws.cache (cacheId g) ≠ none) →
      remoteCallCount (runWorker net parse ws files).2 = 0) ∧
    ((∀ g ∈ files, alistLookup ws.cache (cacheId g) ≠ none ∨
        ∃ r2, (analyzeQuestionImage (net g.base64) parse).result = Except.ok r2) →
      ∀ g ∈ files, alistLookup (runWorker net parse ws files).1.cache (cacheId g) ≠ none) := by
  refine ⟨?_, ?_, ?_, ?_⟩
  · intro h
    rw [processFile_hit net parse ws f r h]
    exact ⟨rfl, rfl⟩
  · intro h hok
    rw [processFile_miss_ok net parse ws f r h hok]
    refine ⟨rfl, rfl, ?_⟩
    exact alistLookup_insert_self ws.cache (cacheId f) r
  · intro hcov
    exact (runWorker_allhit_nocalls net parse files ws hcov).1
  · exact runWorker_covers net parse files ws

/-- Witness for C1: one cached file issues no remote calls, a whole-batch run
over covered fingerprints issues none, and a fresh file emits its persistPut
event before its countProcessed event. -/
theorem C1_idempotent_caching_witness :
    remoteCallCount (processFile wNetOk wParse wWsHit (wFile "a.png")).2 = 0 ∧
    remoteCallCount (runWorker wNetOk wParse wWsHit [wFile "a.png"]).2 = 0 ∧
    (processFile wNetOk wParse wWsInit (wFile "b.png")).2 =
      List.replicate
          (analyzeQuestionImage (wNetOk (wFile "b.png").base64) wParse).invocations
          (BatchEv.remoteCall (cacheId (wFile "b.png"))) ++
        [BatchEv.persistPut (cacheId (wFile "b.png")), BatchEv.countProcessed] := by
  have h := C1_idempotent_caching wNetOk wParse wWsHit (wFile "a.png")
    [wFile "a.png"] wRecord
  have h2 := C1_idempotent_caching wNetOk wParse wWsInit (wFile "b.png") [] wRecord
  refine ⟨(h.1 (by decide)).1, ?_, ((h2.2.1 (by decide) rfl)).1⟩
  apply h.2.2.1
  intro g hg
  simp only [List.mem_singleton] at hg
  subst hg
  decide
